import Mathlib

/-!
Verification of the betteradam backend: a FastAPI service that turns Korean
text into MP3 speech with an American-accent reference voice, chaining the
MeloTTS Korean synthesizer and the OpenVoice V2 tone-color converter.

The two source files (`backend/main.py`, `backend/tts_engine.py`) are embedded
shallowly:

* environment variables and the filesystem become an explicit `Env` record of
  predicates (`os.path.isfile`, `Path.exists`, `glob`);
* the pretrained models and the pydub MP3 encoder are uninterpreted functions
  gathered in an `Oracle` record;
* the four module-level globals of `tts_engine.py` become an `EngineState`
  record threaded explicitly, with Python's partial-mutation-on-exception
  semantics preserved (`_load_models` returns the state at the point where an
  exception is raised);
* Python exceptions become an explicit `PyExc` value;
* the temporary directory used by `generate_korean_tts_american_accent`
  becomes a small association-list file system, and the two model invocations
  are additionally recorded in an event trace so that their number and order
  can be stated.
-/

/-- Byte strings (file contents, request/response bodies). -/
abbrev Bytes := List Nat

/-- `pathlib`'s `/` and `os.path.join` on already-relative second components. -/
def joinPath (a b : String) : String := a ++ "/" ++ b

/-- `Path(p).parent`: drop the last `/`-separated component. -/
def parentPath (p : String) : String :=
  ⟨(((p.data.reverse.dropWhile (fun c => c ≠ '/')).drop 1).reverse)⟩

/-- Python's `str.strip()`: remove leading and trailing whitespace. -/
def pyStrip (s : String) : String :=
  ⟨(((s.data.dropWhile Char.isWhitespace).reverse.dropWhile Char.isWhitespace).reverse)⟩

/-- Python's `key.lower().replace("_", "-")` from `_load_models`. -/
def lowerHyphen (s : String) : String :=
  ⟨s.data.map (fun c => if c = '_' then '-' else c.toLower)⟩

/-- Python truthiness of `os.environ.get(...)`: `None` and `""` are falsy. -/
def pyTruthy : Option String → Bool
  | none => false
  | some s => s ≠ ""

/-- The ambient process environment of `tts_engine.py`: environment variables,
the resolved module file path, and the filesystem tests the module performs. -/
structure Env where
  OPENVOICE_ROOT : Option String
  TTS_REFERENCE_VOICE : Option String
  /-- `Path(__file__).resolve()` for `backend/tts_engine.py`. -/
  moduleFile : String
  /-- `pathlib.Path.exists` (used for dirs, the `openvoice` entry, `.pth` files). -/
  pathExists : String → Bool
  /-- `os.path.isfile` (used for the reference voice). -/
  isFile : String → Bool
  /-- `Path.glob("*.pth")` listing for a directory, in iteration order. -/
  globPth : String → List String
  /-- `torch.cuda.is_available()`. -/
  cudaAvailable : Bool

/-- `tts_engine._get_openvoice_root`: the `OPENVOICE_ROOT` variable if truthy,
else the first of `[module dir ../../../OpenVoice, module dir ../../OpenVoice]`
containing an `openvoice` entry, else the latter default. -/
def _get_openvoice_root (env : Env) : String :=
  if pyTruthy env.OPENVOICE_ROOT then env.OPENVOICE_ROOT.getD "" else
  let c1 := joinPath (parentPath (parentPath (parentPath env.moduleFile))) "OpenVoice"
  let c2 := joinPath (parentPath (parentPath env.moduleFile)) "OpenVoice"
  if env.pathExists (joinPath c1 "openvoice") then c1
  else if env.pathExists (joinPath c2 "openvoice") then c2
  else c2

/-- `tts_engine._get_ckpt_v2`. -/
def _get_ckpt_v2 (env : Env) : String :=
  joinPath (_get_openvoice_root env) "checkpoints_v2"

/-- C7: `_get_openvoice_root` returns the `OPENVOICE_ROOT` variable whenever it
is set to a non-empty string; otherwise the first of the three-levels-up and
two-levels-up `OpenVoice` candidates containing an `openvoice` entry; and when
neither does, the two-levels-up default even though it does not exist. -/
theorem c7_get_openvoice_root_spec (env : Env) :
    (∀ r : String, env.OPENVOICE_ROOT = some r → r ≠ "" →
      _get_openvoice_root env = r) ∧
    (pyTruthy env.OPENVOICE_ROOT = false →
      (env.pathExists (joinPath (joinPath (parentPath (parentPath (parentPath env.moduleFile))) "OpenVoice") "openvoice") = true →
        _get_openvoice_root env = joinPath (parentPath (parentPath (parentPath env.moduleFile))) "OpenVoice") ∧
      (env.pathExists (joinPath (joinPath (parentPath (parentPath (parentPath env.moduleFile))) "OpenVoice") "openvoice") = false →
        _get_openvoice_root env = joinPath (parentPath (parentPath env.moduleFile)) "OpenVoice")) := by
  refine ⟨?_, ?_⟩
  · intro r hr hne
    simp [_get_openvoice_root, pyTruthy, hr, hne]
  · intro hfalsy
    constructor
    · intro h1
      simp [_get_openvoice_root, hfalsy, h1]
    · intro h1
      by_cases h2 : env.pathExists (joinPath (joinPath (parentPath (parentPath env.moduleFile)) "OpenVoice") "openvoice") = true
      · simp [_get_openvoice_root, hfalsy, h1, h2]
      · simp at h2
        simp [_get_openvoice_root, hfalsy, h1, h2]

/-- A concrete environment in which `OPENVOICE_ROOT` is unset, only the
two-levels-up candidate contains an `openvoice` entry. -/
def envC7 : Env where
  OPENVOICE_ROOT := none
  TTS_REFERENCE_VOICE := none
  moduleFile := "/srv/betteradam/backend/tts_engine.py"
  pathExists := fun p => p = "/srv/betteradam/OpenVoice/openvoice"
  isFile := fun _ => false
  globPth := fun _ => []
  cudaAvailable := false

/-- Witness for C7 at a concrete environment: with `OPENVOICE_ROOT` unset and
only `<project>/OpenVoice` holding an `openvoice` entry, the two-levels-up
candidate is returned. -/
theorem c7_get_openvoice_root_spec_witness :
    _get_openvoice_root envC7 = "/srv/betteradam/OpenVoice" :=
  (c7_get_openvoice_root_spec envC7).2 (by decide) |>.2 (by decide)

/-- A Python exception value: `FileNotFoundError` with its message, or any
other exception with its class name and message. -/
inductive PyExc where
  | fileNotFound (msg : String)
  | other (excName : String) (msg : String)
deriving DecidableEq, Repr

/-- The loaded `ToneColorConverter`: built from a config path and device, then
`load_ckpt` of a checkpoint path. -/
structure Converter where
  config : String
  device : String
  ckpt : String
deriving DecidableEq, Repr

/-- The loaded MeloTTS model: `TTS(language="KR", device=device)`. -/
structure Melo where
  language : String
  device : String
deriving DecidableEq, Repr

/-- The four module-level globals of `tts_engine.py`. -/
structure EngineState where
  tone_color_converter : Option Converter
  melo_model : Option Melo
  target_se : Option Nat
  kr_source_se : Option Nat
deriving DecidableEq, Repr

/-- The module-import-time state: all four globals are `None` (lazy init). -/
def initialEngineState : EngineState :=
  { tone_color_converter := none, melo_model := none,
    target_se := none, kr_source_se := none }

/-- The pretrained models and encoders as uninterpreted functions. Speaker
embeddings are represented by an abstract `Nat` token. -/
structure Oracle where
  /-- `next(iter(melo_model.hps.data.spk2id.keys()))`. -/
  firstSpeakerKey : String
  /-- `melo_model.hps.data.spk2id[key]`. -/
  spk2id : String → Nat
  /-- `se_extractor.get_se(reference_path, converter, vad=True)`, first component. -/
  getSe : String → Nat
  /-- `torch.load(se_file, map_location=device)`. -/
  torchLoad : String → Nat
  /-- `melo_model.tts_to_file(text, speaker_id, path, speed=speed, quiet=True)`:
  the WAV bytes written to the path. -/
  ttsToFile : String → Nat → Float → Bytes
  /-- `tone_color_converter.convert(...)`: source WAV bytes and the two speaker
  embeddings to the WAV bytes written to the output path. -/
  converterConvert : Bytes → Nat → Nat → Bytes
  /-- `main.wav_to_mp3` (pydub `from_wav` + `export mp3 128k`), which may raise. -/
  wavToMp3 : Bytes → Except PyExc Bytes

/-- Message of the `FileNotFoundError` for missing OpenVoice V2 checkpoints. -/
def ckptMissingMsg (ckpt : String) : String :=
  "OpenVoice V2 checkpoints not found at " ++ ckpt ++
  ". Download from https://myshell-public-repo-host.s3.amazonaws.com/openvoice/checkpoints_v2_0417.zip and extract to checkpoints_v2/"

/-- Message of the `FileNotFoundError` for a missing reference voice. -/
def refMissingMsg : String :=
  "Reference voice not found. Set TTS_REFERENCE_VOICE to a path to a short (3-10 s) American/Texas accent WAV/MP3, or add one at OpenVoice/resources/example_reference.mp3"

/-- Message of the `FileNotFoundError` for a missing base-speakers directory. -/
def sesMissingMsg (sesDir : String) : String :=
  "Base speakers dir not found: " ++ sesDir ++
  ". Extract checkpoints_v2 and ensure base_speakers/ses/ exists."

/-- Message of the `FileNotFoundError` for an empty base-speakers directory. -/
def noPthMsg (sesDir : String) : String :=
  "No .pth files in " ++ sesDir ++ ". Check OpenVoice V2 base_speakers."

/-- The first reference-voice candidate in `_load_models`:
`os.environ.get("TTS_REFERENCE_VOICE", <root>/resources/example_reference.mp3)`. -/
def referenceCandidate1 (env : Env) (root : String) : String :=
  env.TTS_REFERENCE_VOICE.getD
    (joinPath (joinPath root "resources") "example_reference.mp3")

/-- The reference-voice path after the fallback reassignment in `_load_models`:
if the first candidate is not a file, `<ckpt>/reference/texas_american.mp3`. -/
def referencePath (env : Env) (root ckpt : String) : String :=
  let r1 := referenceCandidate1 env root
  if env.isFile r1 then r1
  else joinPath (joinPath ckpt "reference") "texas_american.mp3"

/-- The speaker-embedding candidate basenames tried in order by `_load_models`. -/
def seCandidates (firstSpeakerKey : String) : List String :=
  [lowerHyphen firstSpeakerKey, firstSpeakerKey, "kr", "KR"]

/-- The `for`/`else` candidate loop of `_load_models`: the first candidate
whose `.pth` file exists, else the first `*.pth` in the directory (`none` when
the directory has no `.pth` file, where the code raises). -/
def seFile (env : Env) (sesDir : String) (firstSpeakerKey : String) : Option String :=
  match (seCandidates firstSpeakerKey).find?
      (fun c => env.pathExists (joinPath sesDir (c ++ ".pth"))) with
  | some c => some (joinPath sesDir (c ++ ".pth"))
  | none => (env.globPth sesDir).head?

/-- `tts_engine._load_models`, with Python's mutate-as-you-go semantics: the
returned state is the value of the four globals when the function returns or
raises, and the optional `PyExc` is the raised exception. -/
def _load_models (env : Env) (o : Oracle) (st : EngineState) :
    EngineState × Option PyExc :=
  if st.tone_color_converter.isSome then (st, none) else
  let device := if env.cudaAvailable then "cuda:0" else "cpu"
  let openvoice_root := _get_openvoice_root env
  let ckpt := _get_ckpt_v2 env
  let converter_dir := joinPath ckpt "converter"
  if env.pathExists converter_dir = false then
    (st, some (.fileNotFound (ckptMissingMsg ckpt)))
  else
    let conv : Converter :=
      { config := joinPath converter_dir "config.json", device := device,
        ckpt := joinPath converter_dir "checkpoint.pth" }
    let st1 := { st with tone_color_converter := some conv }
    let reference_path := referencePath env openvoice_root ckpt
    if env.isFile reference_path = false then
      (st1, some (.fileNotFound refMissingMsg))
    else
      let st2 := { st1 with target_se := some (o.getSe reference_path) }
      let melo : Melo := { language := "KR", device := device }
      let st3 := { st2 with melo_model := some melo }
      let ses_dir := joinPath (joinPath ckpt "base_speakers") "ses"
      if env.pathExists ses_dir = false then
        (st3, some (.fileNotFound (sesMissingMsg ses_dir)))
      else
        match seFile env ses_dir o.firstSpeakerKey with
        | none => (st3, some (.fileNotFound (noPthMsg ses_dir)))
        | some f => ({ st3 with kr_source_se := some (o.torchLoad f) }, none)

/-- A model invocation recorded by `generate_korean_tts_american_accent`. -/
inductive ModelEvent where
  | meloTTSToFile (text : String) (speakerId : Nat) (path : String) (speed : Float)
  | toneConvert (srcPath : String) (srcSe tgtSe : Nat) (outPath : String)
deriving Repr

/-- The temporary directory of `generate_korean_tts_american_accent` as an
association list from (relative) path to file contents; later writes shadow. -/
abbrev TmpFS := List (String × Bytes)

/-- Write a file into the temporary directory. -/
def fsWrite (fs : TmpFS) (p : String) (b : Bytes) : TmpFS := (p, b) :: fs

/-- Read a file from the temporary directory. -/
def fsRead (fs : TmpFS) (p : String) : Option Bytes := fs.lookup p

/-- Outcome of one call to `generate_korean_tts_american_accent`: the module
state after the call, the returned bytes or raised exception, the model
invocations in order, and the final temporary-directory contents. -/
structure GenResult where
  state : EngineState
  result : Except PyExc Bytes
  events : List ModelEvent
  tmpFs : TmpFS

/-- `tts_engine.generate_korean_tts_american_accent`: load models lazily, have
MeloTTS write the base Korean WAV to `kr_base.wav`, have the tone-color
converter transform it into `output.wav`, and return that file's contents.
Accessing an unloaded `_melo_model` (possible after a partial `_load_models`
failure) raises `AttributeError`; `convert` with a `None` embedding fails. -/
def generate_korean_tts_american_accent (env : Env) (o : Oracle)
    (st : EngineState) (text : String) (speed : Float) : GenResult :=
  match _load_models env o st with
  | (st', some e) => ⟨st', .error e, [], []⟩
  | (st', none) =>
    match st'.tone_color_converter with
    | none =>
      ⟨st', .error (.other "AttributeError" "NoneType object has no attribute device"), [], []⟩
    | some _ =>
      match st'.melo_model with
      | none =>
        ⟨st', .error (.other "AttributeError" "NoneType object has no attribute hps"), [], []⟩
      | some _ =>
        let src_path := "kr_base.wav"
        let out_path := "output.wav"
        let speaker_id := o.spk2id o.firstSpeakerKey
        let fs1 := fsWrite [] src_path (o.ttsToFile text speaker_id speed)
        let ev1 := ModelEvent.meloTTSToFile text speaker_id src_path speed
        match st'.kr_source_se, st'.target_se with
        | some srcSe, some tgtSe =>
          let outBytes := o.converterConvert ((fsRead fs1 src_path).getD []) srcSe tgtSe
          let fs2 := fsWrite fs1 out_path outBytes
          let ev2 := ModelEvent.toneConvert src_path srcSe tgtSe out_path
          ⟨st',
            match fsRead fs2 out_path with
            | some b => .ok b
            | none => .error (.fileNotFound out_path),
            [ev1, ev2], fs2⟩
        | _, _ =>
          ⟨st', .error (.other "Exception" "tone color conversion failed"), [ev1], fs1⟩

/-- A response of the `POST /api/tts` handler: a body response with media type
and Content-Disposition header, or a raised `HTTPException`. -/
inductive TTSResult where
  | response (body : Bytes) (mediaType : String) (contentDisposition : String)
  | httpError (statusCode : Nat) (detail : String)
deriving DecidableEq, Repr

/-- Outcome of one call to the `POST /api/tts` handler: the HTTP result, the
module state afterwards, and whether control reached the pipeline block. -/
structure HandlerResult where
  result : TTSResult
  state : EngineState
  pipelineInvoked : Bool

/-- `main.tts`, the `POST /api/tts` handler: strip the request text, reject
empty or overlong input with 400, otherwise run the two-stage pipeline, map
`FileNotFoundError` to 503 with the exception's message and any other
exception to 500. `wav_to_mp3` is the `Oracle.wavToMp3` uninterpreted
function; a missing request text behaves as `""` via `request.text or ""`. -/
def tts (env : Env) (o : Oracle) (st : EngineState) (reqText : Option String) :
    HandlerResult :=
  let text := pyStrip (reqText.getD "")
  if text = "" then ⟨.httpError 400 "text is required", st, false⟩
  else if text.length > 5000 then
    ⟨.httpError 400 "text too long (max 5000 chars)", st, false⟩
  else
    let g := generate_korean_tts_american_accent env o st text 1.0
    match g.result with
    | .error (.fileNotFound m) => ⟨.httpError 503 m, g.state, true⟩
    | .error (.other n m) => ⟨.httpError 500 (n ++ ": " ++ m), g.state, true⟩
    | .ok wavBytes =>
      match o.wavToMp3 wavBytes with
      | .error (.fileNotFound m) => ⟨.httpError 503 m, g.state, true⟩
      | .error (.other n m) => ⟨.httpError 500 (n ++ ": " ++ m), g.state, true⟩
      | .ok mp3Bytes =>
        ⟨.response mp3Bytes "audio/mpeg" "attachment; filename=tts_output.mp3",
          g.state, true⟩

/-- The runtime environment seen by the `GET /api/debug` endpoint; every
fallible check is an `Except` whose error is the exception's message. -/
structure DebugEnv where
  pythonVersion : String
  OPENVOICE_ROOT : Option String
  isFile : String → Bool
  /-- `__import__(mod)` and reading `__version__` (default "ok"). -/
  importMod : String → Except String String
  /-- `shutil.which("ffmpeg")`. -/
  whichFfmpeg : Option String
  /-- `AutoTokenizer.from_pretrained("kykim/bert-kor-base")`. -/
  bertKorBase : Except String Unit

/-- The module list probed by the `GET /api/debug` import check. -/
def debugModules : List String :=
  ["torch", "openvoice", "melo", "pydub", "faster_whisper", "transformers",
   "tokenizers"]

/-- `main.debug`, the `GET /api/debug` handler: a JSON object built as an
ordered key-value list; every fallible check catches its exception and stores
an `ERROR: ...` string instead. -/
def debug (env : DebugEnv) : List (String × String) :=
  let openvoice_root := env.OPENVOICE_ROOT.getD "not set"
  let ckpt := joinPath (joinPath (joinPath openvoice_root "checkpoints_v2")
    "converter") "checkpoint.pth"
  [("python", env.pythonVersion),
   ("OPENVOICE_ROOT", openvoice_root),
   ("checkpoints_v2", if env.isFile ckpt then "OK" else "MISSING: " ++ ckpt)]
  ++ debugModules.map (fun m =>
      ("import_" ++ m,
        match env.importMod m with
        | .ok v => v
        | .error e => "ERROR: " ++ e))
  ++ [("ffmpeg", env.whichFfmpeg.getD "NOT FOUND"),
      ("model_bert_kor_base",
        match env.bertKorBase with
        | .ok _ => "OK (cached)"
        | .error e => "ERROR: " ++ e)]

/-! ### Concrete environments and oracles used by the witnesses -/

/-- An environment in which the whole load succeeds: `OPENVOICE_ROOT` set, the
converter checkpoints, the default reference voice and the `kr.pth` speaker
embedding all present. -/
def envOK : Env where
  OPENVOICE_ROOT := some "/ov"
  TTS_REFERENCE_VOICE := none
  moduleFile := "/srv/betteradam/backend/tts_engine.py"
  pathExists := fun p =>
    p == "/ov/checkpoints_v2/converter" ||
    p == "/ov/checkpoints_v2/base_speakers/ses" ||
    p == "/ov/checkpoints_v2/base_speakers/ses/kr.pth"
  isFile := fun p => p == "/ov/resources/example_reference.mp3"
  globPth := fun _ => []
  cudaAvailable := false

/-- An environment in which no file exists at all: the converter-checkpoints
check is the first to fail. -/
def envEmpty : Env where
  OPENVOICE_ROOT := some "/ov"
  TTS_REFERENCE_VOICE := none
  moduleFile := "/srv/betteradam/backend/tts_engine.py"
  pathExists := fun _ => false
  isFile := fun _ => false
  globPth := fun _ => []
  cudaAvailable := false

/-- An environment in which the converter checkpoints exist but no reference
voice does: `_load_models` raises after having assigned the converter global. -/
def envRefMissing : Env where
  OPENVOICE_ROOT := some "/ov"
  TTS_REFERENCE_VOICE := none
  moduleFile := "/srv/betteradam/backend/tts_engine.py"
  pathExists := fun p => p == "/ov/checkpoints_v2/converter"
  isFile := fun _ => false
  globPth := fun _ => []
  cudaAvailable := false

/-- A concrete oracle: the model outputs are small byte lists chosen to make
data flow visible (`converterConvert` prepends `9`, `wavToMp3` prepends `0`). -/
def oracleOK : Oracle where
  firstSpeakerKey := "KR"
  spk2id := fun _ => 0
  getSe := fun _ => 7
  torchLoad := fun _ => 3
  ttsToFile := fun _ _ _ => [1, 2]
  converterConvert := fun w _ _ => 9 :: w
  wavToMp3 := fun w => .ok (0 :: w)

/-- The module state after a successful `_load_models` under `envOK`. -/
def stOK : EngineState where
  tone_color_converter := some
    { config := "/ov/checkpoints_v2/converter/config.json", device := "cpu",
      ckpt := "/ov/checkpoints_v2/converter/checkpoint.pth" }
  melo_model := some { language := "KR", device := "cpu" }
  target_se := some 7
  kr_source_se := some 3

/-! ### The claims -/

/-- C1: for every `POST /api/tts` request whose stripped text is non-empty and
at most 5000 characters, when the pipeline functions succeed the handler
returns a response whose body is `wav_to_mp3` applied to the output of
`generate_korean_tts_american_accent` on the stripped text, with media type
`audio/mpeg` and a Content-Disposition header naming `tts_output.mp3`. -/
theorem c1_tts_success_response (env : Env) (o : Oracle) (st : EngineState)
    (reqText : Option String) (wav mp3 : Bytes)
    (hne : pyStrip (reqText.getD "") ≠ "")
    (hlen : (pyStrip (reqText.getD "")).length ≤ 5000)
    (hgen : (generate_korean_tts_american_accent env o st
      (pyStrip (reqText.getD "")) 1.0).result = .ok wav)
    (hmp3 : o.wavToMp3 wav = .ok mp3) :
    (tts env o st reqText).result =
      .response mp3 "audio/mpeg" "attachment; filename=tts_output.mp3" := by
  have hlt : ¬ (pyStrip (reqText.getD "")).length > 5000 := Nat.not_lt.mpr hlen
  simp only [tts, if_neg hne, if_neg hlt, hgen, hmp3]

/-- Witness for C1 at a concrete request: stripping `" hi "` and running the
concrete pipeline yields exactly the MP3 bytes of the chained calls. -/
theorem c1_tts_success_response_witness :
    (tts envOK oracleOK initialEngineState (some " hi ")).result =
      .response [0, 9, 1, 2] "audio/mpeg"
        "attachment; filename=tts_output.mp3" :=
  c1_tts_success_response envOK oracleOK initialEngineState (some " hi ")
    [9, 1, 2] [0, 9, 1, 2] (by decide) (by decide) rfl rfl

/-- C3: the handler answers 400 — leaving the module state untouched and never
entering the pipeline block — exactly when the request text is missing, empty
or whitespace after stripping, or longer than 5000 characters after stripping;
for every other text the pipeline is invoked, and no 400 is raised. -/
theorem c3_tts_validation (env : Env) (o : Oracle) (st : EngineState)
    (reqText : Option String) :
    (pyStrip (reqText.getD "") = "" ∨ (pyStrip (reqText.getD "")).length > 5000 →
      (∃ d, (tts env o st reqText).result = .httpError 400 d) ∧
      (tts env o st reqText).pipelineInvoked = false ∧
      (tts env o st reqText).state = st) ∧
    (¬(pyStrip (reqText.getD "") = "" ∨ (pyStrip (reqText.getD "")).length > 5000) →
      (tts env o st reqText).pipelineInvoked = true ∧
      ∀ s d, (tts env o st reqText).result = .httpError s d → s ≠ 400) := by
  by_cases h1 : pyStrip (reqText.getD "") = ""
  · refine ⟨fun _ => ⟨⟨"text is required", ?_⟩, ?_, ?_⟩, fun hn => absurd (.inl h1) hn⟩
      <;> simp [tts, h1]
  · by_cases h2 : (pyStrip (reqText.getD "")).length > 5000
    · refine ⟨fun _ => ⟨⟨"text too long (max 5000 chars)", ?_⟩, ?_, ?_⟩,
        fun hn => absurd (.inr h2) hn⟩ <;> simp [tts, h1, h2]
    · refine ⟨fun h => absurd h (by simp [h1, h2]), fun _ => ⟨?_, ?_⟩⟩
      · simp only [tts, if_neg h1, if_neg h2]
        split
        · rfl
        · rfl
        · split <;> rfl
      · intro s d
        simp only [tts, if_neg h1, if_neg h2]
        split
        · intro h; injection h with hs _; omega
        · intro h; injection h with hs _; omega
        · split
          · intro h; injection h with hs _; omega
          · intro h; injection h with hs _; omega
          · intro h; exact absurd h (by simp)

/-- Witness for C3 at a concrete request: a missing text (handled as the empty
string) yields a 400 error without touching the pipeline or the state. -/
theorem c3_tts_validation_witness :
    (∃ d, (tts envOK oracleOK initialEngineState none).result =
      .httpError 400 d) ∧
    (tts envOK oracleOK initialEngineState none).pipelineInvoked = false ∧
    (tts envOK oracleOK initialEngineState none).state = initialEngineState :=
  (c3_tts_validation envOK oracleOK initialEngineState none).1 (.inl (by decide))

/-- C4: for a request passing validation, a `FileNotFoundError` from the
pipeline becomes a 503 whose detail is the exception's message, any other
exception becomes a 500, and no error status other than 503 and 500 can come
out of the pipeline stage. -/
theorem c4_tts_pipeline_errors (env : Env) (o : Oracle) (st : EngineState)
    (reqText : Option String)
    (hne : pyStrip (reqText.getD "") ≠ "")
    (hlen : (pyStrip (reqText.getD "")).length ≤ 5000) :
    (∀ m, (generate_korean_tts_american_accent env o st
        (pyStrip (reqText.getD "")) 1.0).result = .error (.fileNotFound m) →
      (tts env o st reqText).result = .httpError 503 m) ∧
    (∀ n m, (generate_korean_tts_american_accent env o st
        (pyStrip (reqText.getD "")) 1.0).result = .error (.other n m) →
      (tts env o st reqText).result = .httpError 500 (n ++ ": " ++ m)) ∧
    (∀ wav m, (generate_korean_tts_american_accent env o st
        (pyStrip (reqText.getD "")) 1.0).result = .ok wav →
      o.wavToMp3 wav = .error (.fileNotFound m) →
      (tts env o st reqText).result = .httpError 503 m) ∧
    (∀ wav n m, (generate_korean_tts_american_accent env o st
        (pyStrip (reqText.getD "")) 1.0).result = .ok wav →
      o.wavToMp3 wav = .error (.other n m) →
      (tts env o st reqText).result = .httpError 500 (n ++ ": " ++ m)) ∧
    (∀ s d, (tts env o st reqText).result = .httpError s d →
      s = 503 ∨ s = 500) := by
  have hlt : ¬ (pyStrip (reqText.getD "")).length > 5000 := Nat.not_lt.mpr hlen
  refine ⟨?_, ?_, ?_, ?_, ?_⟩
  · intro m hg; simp only [tts, if_neg hne, if_neg hlt, hg]
  · intro n m hg; simp only [tts, if_neg hne, if_neg hlt, hg]
  · intro wav m hg hm; simp only [tts, if_neg hne, if_neg hlt, hg, hm]
  · intro wav n m hg hm; simp only [tts, if_neg hne, if_neg hlt, hg, hm]
  · intro s d
    simp only [tts, if_neg hne, if_neg hlt]
    split
    · intro h; injection h with hs _; omega
    · intro h; injection h with hs _; omega
    · split
      · intro h; injection h with hs _; omega
      · intro h; injection h with hs _; omega
      · intro h; exact absurd h (by simp)

/-- Witness for C4 at a concrete environment without checkpoints: the
`FileNotFoundError` raised by `_load_models` surfaces as a 503 whose detail is
that exception's message. -/
theorem c4_tts_pipeline_errors_witness :
    (tts envEmpty oracleOK initialEngineState (some "hi")).result =
      .httpError 503 (ckptMissingMsg "/ov/checkpoints_v2") :=
  (c4_tts_pipeline_errors envEmpty oracleOK initialEngineState (some "hi")
    (by decide) (by decide)).1 (ckptMissingMsg "/ov/checkpoints_v2") rfl

/-- C2: whenever `_load_models` leaves the models in place,
`generate_korean_tts_american_accent` performs exactly two model invocations
in order — MeloTTS writes the base WAV for the text, then the tone-color
converter transforms those bytes with the Korean source and reference target
embeddings — and the returned bytes are the contents of the converter's output
file `output.wav`. -/
theorem c2_generate_chains_two_models (env : Env) (o : Oracle)
    (st st' : EngineState) (text : String) (speed : Float) (srcSe tgtSe : Nat)
    (hload : _load_models env o st = (st', none))
    (hconv : st'.tone_color_converter.isSome = true)
    (hmelo : st'.melo_model.isSome = true)
    (hsrc : st'.kr_source_se = some srcSe)
    (htgt : st'.target_se = some tgtSe) :
    (generate_korean_tts_american_accent env o st text speed).events =
      [.meloTTSToFile text (o.spk2id o.firstSpeakerKey) "kr_base.wav" speed,
       .toneConvert "kr_base.wav" srcSe tgtSe "output.wav"] ∧
    (generate_korean_tts_american_accent env o st text speed).result =
      .ok (o.converterConvert
        (o.ttsToFile text (o.spk2id o.firstSpeakerKey) speed) srcSe tgtSe) ∧
    fsRead (generate_korean_tts_american_accent env o st text speed).tmpFs
        "output.wav" =
      some (o.converterConvert
        (o.ttsToFile text (o.spk2id o.firstSpeakerKey) speed) srcSe tgtSe) := by
  obtain ⟨c, hc⟩ := Option.isSome_iff_exists.mp hconv
  obtain ⟨m, hm⟩ := Option.isSome_iff_exists.mp hmelo
  refine ⟨?_, ?_, ?_⟩ <;>
    simp [generate_korean_tts_american_accent, hload, hc, hm, hsrc, htgt,
      fsRead, fsWrite, List.lookup]

/-- Witness for C2 at a concrete environment where loading succeeds: the trace
holds exactly the MeloTTS call and the converter call, and the result is the
converter's output file contents. -/
theorem c2_generate_chains_two_models_witness :
    (generate_korean_tts_american_accent envOK oracleOK initialEngineState
      "hi" 1.0).events =
      [.meloTTSToFile "hi" 0 "kr_base.wav" 1.0,
       .toneConvert "kr_base.wav" 3 7 "output.wav"] ∧
    (generate_korean_tts_american_accent envOK oracleOK initialEngineState
      "hi" 1.0).result = .ok [9, 1, 2] ∧
    fsRead (generate_korean_tts_american_accent envOK oracleOK
      initialEngineState "hi" 1.0).tmpFs "output.wav" = some [9, 1, 2] :=
  c2_generate_chains_two_models envOK oracleOK initialEngineState stOK
    "hi" 1.0 3 7 rfl rfl rfl rfl rfl

/-- `_load_models` returns immediately when the converter global is set. -/
lemma load_models_already_loaded (env : Env) (o : Oracle) (st : EngineState)
    (h : st.tone_color_converter.isSome = true) :
    _load_models env o st = (st, none) := by
  simp [_load_models, h]

/-- A successful `_load_models` always leaves the converter global set. -/
lemma load_models_success_isSome (env : Env) (o : Oracle) (st : EngineState)
    (h : (_load_models env o st).2 = none) :
    (_load_models env o st).1.tone_color_converter.isSome = true := by
  by_cases h0 : st.tone_color_converter.isSome = true
  · rw [load_models_already_loaded env o st h0]; exact h0
  · rw [Bool.not_eq_true] at h0
    by_cases h1 : env.pathExists (joinPath (_get_ckpt_v2 env) "converter") = false
    · simp [_load_models, h0, h1] at h
    · rw [Bool.not_eq_false] at h1
      by_cases h2 : env.isFile (referencePath env (_get_openvoice_root env)
          (_get_ckpt_v2 env)) = false
      · simp [_load_models, h0, h1, h2] at h
      · rw [Bool.not_eq_false] at h2
        by_cases h3 : env.pathExists (joinPath (joinPath (_get_ckpt_v2 env)
            "base_speakers") "ses") = false
        · simp [_load_models, h0, h1, h2, h3] at h
        · rw [Bool.not_eq_false] at h3
          rcases hf : seFile env (joinPath (joinPath (_get_ckpt_v2 env)
              "base_speakers") "ses") o.firstSpeakerKey with _ | f
          · simp [_load_models, h0, h1, h2, h3, hf] at h
          · simp [_load_models, h0, h1, h2, h3, hf]

/-- C5: model loading is lazy and one-time: at module import all four globals
are `None`, and after any successful `_load_models` every subsequent call —
under any environment — returns immediately with the same state and no
exception, modifying nothing. -/
theorem c5_lazy_one_time_loading :
    (initialEngineState.tone_color_converter = none ∧
     initialEngineState.melo_model = none ∧
     initialEngineState.target_se = none ∧
     initialEngineState.kr_source_se = none) ∧
    (∀ (env : Env) (o : Oracle) (st : EngineState) (env' : Env) (o' : Oracle),
      (_load_models env o st).2 = none →
      _load_models env' o' (_load_models env o st).1 =
        ((_load_models env o st).1, none)) := by
  refine ⟨⟨rfl, rfl, rfl, rfl⟩, ?_⟩
  intro env o st env' o' h
  exact load_models_already_loaded env' o' _ (load_models_success_isSome env o st h)

/-- Witness for C5: after a successful load under `envOK`, a second call under
the entirely different `envEmpty` still returns the loaded state unchanged. -/
theorem c5_lazy_one_time_loading_witness :
    _load_models envEmpty oracleOK
      (_load_models envOK oracleOK initialEngineState).1 =
    ((_load_models envOK oracleOK initialEngineState).1, none) :=
  (c5_lazy_one_time_loading).2 envOK oracleOK initialEngineState
    envEmpty oracleOK rfl

/-- C6: reference-voice discovery tries the `TTS_REFERENCE_VOICE` variable if
set, else `<openvoice_root>/resources/example_reference.mp3`; when the chosen
path is not an existing file it falls back to
`<checkpoints_v2>/reference/texas_american.mp3`; and when that also does not
exist, `_load_models` raises `FileNotFoundError`. -/
theorem c6_reference_voice_fallback (env : Env) (o : Oracle) (st : EngineState) :
    (∀ p, env.TTS_REFERENCE_VOICE = some p →
      referenceCandidate1 env (_get_openvoice_root env) = p) ∧
    (env.TTS_REFERENCE_VOICE = none →
      referenceCandidate1 env (_get_openvoice_root env) =
        joinPath (joinPath (_get_openvoice_root env) "resources")
          "example_reference.mp3") ∧
    (env.isFile (referenceCandidate1 env (_get_openvoice_root env)) = true →
      referencePath env (_get_openvoice_root env) (_get_ckpt_v2 env) =
        referenceCandidate1 env (_get_openvoice_root env)) ∧
    (env.isFile (referenceCandidate1 env (_get_openvoice_root env)) = false →
      referencePath env (_get_openvoice_root env) (_get_ckpt_v2 env) =
        joinPath (joinPath (_get_ckpt_v2 env) "reference")
          "texas_american.mp3") ∧
    (st.tone_color_converter = none →
      env.pathExists (joinPath (_get_ckpt_v2 env) "converter") = true →
      env.isFile (referencePath env (_get_openvoice_root env)
        (_get_ckpt_v2 env)) = false →
      (_load_models env o st).2 = some (.fileNotFound refMissingMsg)) := by
  refine ⟨?_, ?_, ?_, ?_, ?_⟩
  · intro p hp; simp [referenceCandidate1, hp]
  · intro hp; simp [referenceCandidate1, hp]
  · intro hf; simp [referencePath, hf]
  · intro hf; simp [referencePath, hf]
  · intro hst hck href
    simp [_load_models, hst, hck, href]

/-- Witness for C6 at a concrete environment with checkpoints but no reference
files anywhere: the load fails with the reference-voice `FileNotFoundError`,
and the fallback path was the Texas one. -/
theorem c6_reference_voice_fallback_witness :
    referencePath envRefMissing "/ov" "/ov/checkpoints_v2" =
      "/ov/checkpoints_v2/reference/texas_american.mp3" ∧
    (_load_models envRefMissing oracleOK initialEngineState).2 =
      some (.fileNotFound refMissingMsg) :=
  ⟨(c6_reference_voice_fallback envRefMissing oracleOK initialEngineState).2.2.2.1
      (by decide),
   (c6_reference_voice_fallback envRefMissing oracleOK
      initialEngineState).2.2.2.2 rfl (by decide) (by decide)⟩

/-- C8: speaker-embedding selection tries, in order,
`<ses_dir>/<key lowercased, underscores to hyphens>.pth`, `<key>.pth`,
`kr.pth`, `KR.pth`, choosing the first that exists; when none exists it falls
back to the first `*.pth` in the directory, and the selection step raises
`FileNotFoundError` exactly when the directory holds no `.pth` file at all. -/
theorem c8_speaker_embedding_selection (env : Env) (o : Oracle)
    (st : EngineState) (sesDir fsk : String) :
    (env.pathExists (joinPath sesDir (lowerHyphen fsk ++ ".pth")) = true →
      seFile env sesDir fsk = some (joinPath sesDir (lowerHyphen fsk ++ ".pth"))) ∧
    (env.pathExists (joinPath sesDir (lowerHyphen fsk ++ ".pth")) = false →
      env.pathExists (joinPath sesDir (fsk ++ ".pth")) = true →
      seFile env sesDir fsk = some (joinPath sesDir (fsk ++ ".pth"))) ∧
    (env.pathExists (joinPath sesDir (lowerHyphen fsk ++ ".pth")) = false →
      env.pathExists (joinPath sesDir (fsk ++ ".pth")) = false →
      env.pathExists (joinPath sesDir "kr.pth") = true →
      seFile env sesDir fsk = some (joinPath sesDir "kr.pth")) ∧
    (env.pathExists (joinPath sesDir (lowerHyphen fsk ++ ".pth")) = false →
      env.pathExists (joinPath sesDir (fsk ++ ".pth")) = false →
      env.pathExists (joinPath sesDir "kr.pth") = false →
      env.pathExists (joinPath sesDir "KR.pth") = true →
      seFile env sesDir fsk = some (joinPath sesDir "KR.pth")) ∧
    (env.pathExists (joinPath sesDir (lowerHyphen fsk ++ ".pth")) = false →
      env.pathExists (joinPath sesDir (fsk ++ ".pth")) = false →
      env.pathExists (joinPath sesDir "kr.pth") = false →
      env.pathExists (joinPath sesDir "KR.pth") = false →
      seFile env sesDir fsk = (env.globPth sesDir).head?) ∧
    (seFile env sesDir fsk = none ↔
      (∀ c ∈ seCandidates fsk,
        env.pathExists (joinPath sesDir (c ++ ".pth")) = false) ∧
      env.globPth sesDir = []) ∧
    (st.tone_color_converter = none →
      env.pathExists (joinPath (_get_ckpt_v2 env) "converter") = true →
      env.isFile (referencePath env (_get_openvoice_root env)
        (_get_ckpt_v2 env)) = true →
      env.pathExists (joinPath (joinPath (_get_ckpt_v2 env) "base_speakers")
        "ses") = true →
      ((_load_models env o st).2 =
          some (.fileNotFound (noPthMsg (joinPath (joinPath (_get_ckpt_v2 env)
            "base_speakers") "ses"))) ↔
        seFile env (joinPath (joinPath (_get_ckpt_v2 env) "base_speakers")
          "ses") o.firstSpeakerKey = none)) := by
  refine ⟨?_, ?_, ?_, ?_, ?_, ?_, ?_⟩
  · intro h1; simp [seFile, seCandidates, List.find?, h1]
  · intro h1 h2; simp [seFile, seCandidates, List.find?, h1, h2]
  · intro h1 h2 h3; simp [seFile, seCandidates, List.find?, h1, h2, h3]
  · intro h1 h2 h3 h4; simp [seFile, seCandidates, List.find?, h1, h2, h3, h4]
  · intro h1 h2 h3 h4; simp [seFile, seCandidates, List.find?, h1, h2, h3, h4]
  · constructor
    · intro h
      rcases hfind : (seCandidates fsk).find?
          (fun c => env.pathExists (joinPath sesDir (c ++ ".pth"))) with _ | c
      · rw [seFile, hfind] at h
        refine ⟨?_, List.head?_eq_none_iff.mp h⟩
        intro c hc
        have := List.find?_eq_none.mp hfind c hc
        simpa using this
      · rw [seFile, hfind] at h; simp at h
    · rintro ⟨hall, hglob⟩
      have hfind : (seCandidates fsk).find?
          (fun c => env.pathExists (joinPath sesDir (c ++ ".pth"))) = none := by
        apply List.find?_eq_none.mpr
        intro c hc
        simp [hall c hc]
      rw [seFile, hfind, hglob]
      rfl
  · intro hst hck href hses
    rcases hf : seFile env (joinPath (joinPath (_get_ckpt_v2 env)
        "base_speakers") "ses") o.firstSpeakerKey with _ | f
    · simp [_load_models, hst, hck, href, hses, hf]
    · simp [_load_models, hst, hck, href, hses, hf]

/-- Witness for C8 at a concrete environment: with first speaker key `KR`, the
lowercased-hyphenated candidate `kr.pth` exists and is chosen. -/
theorem c8_speaker_embedding_selection_witness :
    seFile envOK "/ov/checkpoints_v2/base_speakers/ses" "KR" =
      some "/ov/checkpoints_v2/base_speakers/ses/kr.pth" :=
  (c8_speaker_embedding_selection envOK oracleOK initialEngineState
    "/ov/checkpoints_v2/base_speakers/ses" "KR").1 (by decide)

/-- C9: `GET /api/debug` is total: for every environment it returns an object
whose keys include `python`, `import_<mod>` for each of the seven probed
modules, `ffmpeg` and `model_bert_kor_base`, and every fallible check that
fails is recorded as an `ERROR: ...` string value instead of propagating. -/
theorem c9_debug_total (env : DebugEnv) :
    (debug env).map Prod.fst =
      ["python", "OPENVOICE_ROOT", "checkpoints_v2", "import_torch",
       "import_openvoice", "import_melo", "import_pydub",
       "import_faster_whisper", "import_transformers", "import_tokenizers",
       "ffmpeg", "model_bert_kor_base"] ∧
    (∀ m e, m ∈ debugModules → env.importMod m = .error e →
      ("import_" ++ m, "ERROR: " ++ e) ∈ debug env) ∧
    (∀ e, env.bertKorBase = .error e →
      ("model_bert_kor_base", "ERROR: " ++ e) ∈ debug env) := by
  refine ⟨?_, ?_, ?_⟩
  · simp [debug, debugModules]
  · intro m e hm he
    fin_cases hm <;> simp [debug, debugModules, he]
  · intro e he
    simp [debug, he]

/-- Witness for C9 at a concrete environment where every import and the
tokenizer download fail: the failures appear as `ERROR: ...` values. -/
theorem c9_debug_total_witness :
    ("import_torch", "ERROR: No module named torch") ∈ debug
      { pythonVersion := "3.10", OPENVOICE_ROOT := none,
        isFile := fun _ => false,
        importMod := fun m => .error ("No module named " ++ m),
        whichFfmpeg := none, bertKorBase := .error "offline" } ∧
    ("model_bert_kor_base", "ERROR: offline") ∈ debug
      { pythonVersion := "3.10", OPENVOICE_ROOT := none,
        isFile := fun _ => false,
        importMod := fun m => .error ("No module named " ++ m),
        whichFfmpeg := none, bertKorBase := .error "offline" } :=
  ⟨(c9_debug_total _).2.1 "torch" "No module named torch" (by decide) rfl,
   (c9_debug_total _).2.2 "offline" rfl⟩

/-- Counterexample to C10 as stated: under a concrete environment where the
checkpoints exist but the reference voice does not, `_load_models` raises
`FileNotFoundError`, yet `_tone_color_converter` does not remain `None` — it
was assigned before the failing check. -/
theorem c10_counterexample_partial_state :
    (_load_models envRefMissing oracleOK initialEngineState).2 =
      some (.fileNotFound refMissingMsg) ∧
    (_load_models envRefMissing oracleOK
      initialEngineState).1.tone_color_converter ≠ none :=
  ⟨rfl, by decide⟩

/-- `_load_models` failing after the checkpoints check leaves the converter
global assigned. -/
lemma load_models_fail_after_ckpt (env : Env) (o : Oracle) (st : EngineState)
    (hst : st.tone_color_converter = none)
    (hck : env.pathExists (joinPath (_get_ckpt_v2 env) "converter") = true)
    (e : PyExc) (h : (_load_models env o st).2 = some e) :
    (_load_models env o st).1.tone_color_converter.isSome = true := by
  by_cases h2 : env.isFile (referencePath env (_get_openvoice_root env)
      (_get_ckpt_v2 env)) = false
  · simp [_load_models, hst, hck, h2]
  · rw [Bool.not_eq_false] at h2
    by_cases h3 : env.pathExists (joinPath (joinPath (_get_ckpt_v2 env)
        "base_speakers") "ses") = false
    · simp [_load_models, hst, hck, h2, h3]
    · rw [Bool.not_eq_false] at h3
      rcases hf : seFile env (joinPath (joinPath (_get_ckpt_v2 env)
          "base_speakers") "ses") o.firstSpeakerKey with _ | f
      · simp [_load_models, hst, hck, h2, h3, hf]
      · simp [_load_models, hst, hck, h2, h3, hf] at h

/-- C10 (amended): starting from the pristine module state, only the
missing-checkpoints failure — raised before any global is assigned — leaves
all four globals `None`; when `_load_models` fails after that check (missing
reference voice or missing speaker embeddings), `_tone_color_converter` is
already assigned, so every subsequent call returns immediately with the
partial state instead of retrying the load. -/
theorem c10_load_failure_not_atomic (env : Env) (o : Oracle) :
    (env.pathExists (joinPath (_get_ckpt_v2 env) "converter") = false →
      _load_models env o initialEngineState =
        (initialEngineState,
          some (.fileNotFound (ckptMissingMsg (_get_ckpt_v2 env))))) ∧
    (∀ e, env.pathExists (joinPath (_get_ckpt_v2 env) "converter") = true →
      (_load_models env o initialEngineState).2 = some e →
      (_load_models env o initialEngineState).1.tone_color_converter.isSome
        = true ∧
      ∀ (env' : Env) (o' : Oracle),
        _load_models env' o' (_load_models env o initialEngineState).1 =
          ((_load_models env o initialEngineState).1, none)) := by
  constructor
  · intro hck
    simp [_load_models, initialEngineState, hck]
  · intro e hck h
    have hsome := load_models_fail_after_ckpt env o initialEngineState rfl hck e h
    exact ⟨hsome, fun env' o' => load_models_already_loaded env' o' _ hsome⟩

/-- Witness for the amended C10: after the reference-voice failure under
`envRefMissing`, the converter global is set and a retry under the fully
provisioned `envOK` still returns the broken partial state unchanged. -/
theorem c10_load_failure_not_atomic_witness :
    (_load_models envRefMissing oracleOK
      initialEngineState).1.tone_color_converter.isSome = true ∧
    _load_models envOK oracleOK
      (_load_models envRefMissing oracleOK initialEngineState).1 =
    ((_load_models envRefMissing oracleOK initialEngineState).1, none) := by
  have h := (c10_load_failure_not_atomic envRefMissing oracleOK).2
    (.fileNotFound refMissingMsg) (by decide) rfl
  exact ⟨h.1, h.2 envOK oracleOK⟩
